import Mathlib

/-
Verification of the button-driven LED blink controller in src/main.c
(Nordic nRF5 scheduler tutorial).  The program state visible to the
claims is embedded shallowly: the LED output pin level, the software
timer (active flag, period, creation flag), the diagnostic log (newest
line first) and the trace of commands issued to the timer service.
Collaborator calls (clock, logging backend, GPIO driver, timer service)
return status codes supplied by an environment record; a non-success
status makes APP_ERROR_CHECK trap, modelled with Except.
-/

namespace SchedTut

/-- Success status code of the SDK, NRF_SUCCESS = 0. -/
def NRF_SUCCESS : Nat := 0

/-- Modelled from the spec: app_util_platform.h priority value reported by
current_int_priority_get when executing in thread/main mode. -/
def APP_IRQ_PRIORITY_THREAD : Nat := 15

/-- Modelled from the spec: board constant from boards.h, the start button
pin (PIN_START in the spec). -/
def BUTTON_1 : Nat := 13

/-- Modelled from the spec: board constant from boards.h, the stop button
pin (PIN_STOP in the spec). -/
def BUTTON_2 : Nat := 14

/-- Modelled from the spec: board constant from boards.h, the LED output pin. -/
def LED_1 : Nat := 17

/-- Modelled from the spec: the APP_TIMER_TICKS macro converts a period in
milliseconds into timer ticks; the spec measures timer periods in
time-units of one millisecond, so periods are kept at millisecond
granularity here. -/
def APP_TIMER_TICKS (ms : Nat) : Nat := ms

/-- A command issued to the timer service collaborator. -/
inductive TimerCmd where
  | start (period : Nat)
  | stop
  deriving Repr, DecidableEq

/-- The program state visible to the claims. -/
structure St where
  /-- GPIO level of LED_1; true = high.  The LED cathode is wired to the
  pin on the DK, so the LED is lit when the pin is low. -/
  ledPin : Bool
  /-- Whether the repeated timer is currently running. -/
  timerActive : Bool
  /-- Period of the timer, meaningful while active. -/
  timerPeriod : Nat
  /-- Whether app_timer_create has been executed. -/
  timerCreated : Bool
  /-- Whether the LFCLK has been requested. -/
  lfclkRequested : Bool
  /-- Whether the logging backend is up. -/
  logReady : Bool
  /-- Whether the two button input pins have events enabled. -/
  buttonsEnabled : Bool
  /-- Diagnostic log, newest line first. -/
  log : List String
  /-- Commands issued to the timer service, newest first. -/
  cmds : List TimerCmd
  deriving Repr, DecidableEq

/-- A fatal trap raised by APP_ERROR_CHECK: the offending status code and
the program state at the point of detection. -/
structure FatalHalt where
  code : Nat
  st : St
  deriving Repr, DecidableEq

/-- Status codes returned by each collaborator call site. -/
structure Env where
  clockStatus : Nat
  logStatus : Nat
  gpioteStatus : Nat
  outStatus : Nat
  in1Status : Nat
  in2Status : Nat
  timerInitStatus : Nat
  timerCreateStatus : Nat
  timerStartStatus : Nat
  timerStopStatus : Nat
  deriving Repr, DecidableEq

/-- Environment in which every collaborator call succeeds. -/
def envOk : Env :=
  ⟨NRF_SUCCESS, NRF_SUCCESS, NRF_SUCCESS, NRF_SUCCESS, NRF_SUCCESS,
   NRF_SUCCESS, NRF_SUCCESS, NRF_SUCCESS, NRF_SUCCESS, NRF_SUCCESS⟩

/-- Modelled from the spec: NRF_LOG_INFO appends one line to the
append-only diagnostic sink. -/
def NRF_LOG_INFO (m : String) (s : St) : St := { s with log := m :: s.log }

/-- Modelled from the spec: APP_ERROR_CHECK treats any non-success status
as fatal and halts the program immediately at the point of detection. -/
def APP_ERROR_CHECK (err : Nat) (s : St) : Except FatalHalt St :=
  if err = NRF_SUCCESS then Except.ok s else Except.error ⟨err, s⟩

/-- Modelled from the spec: app_timer_start asks the timer service to begin
invoking the callback at the given period; the command is recorded, and on
success the timer becomes active with that period. -/
def app_timer_start (status : Nat) (period : Nat) (s : St) : Nat × St :=
  let s := { s with cmds := TimerCmd.start period :: s.cmds }
  if status = NRF_SUCCESS then
    (NRF_SUCCESS, { s with timerActive := true, timerPeriod := period })
  else
    (status, s)

/-- Modelled from the spec: app_timer_stop asks the timer service to cease
invoking the callback; the command is recorded, and on success the timer
becomes inactive. -/
def app_timer_stop (status : Nat) (s : St) : Nat × St :=
  let s := { s with cmds := TimerCmd.stop :: s.cmds }
  if status = NRF_SUCCESS then
    (NRF_SUCCESS, { s with timerActive := false })
  else
    (status, s)

/-- Modelled from the spec: current_int_priority_get reports the interrupt
priority of the current execution context; the context is an input of the
model, passed as the priority value the hardware would report. -/
def current_int_priority_get (prio : Nat) : Nat := prio

/-- Shallow embedding of button_handler (src/main.c lines 64 to 94):
switch on the pin, starting or stopping the LED toggle timer with an
APP_ERROR_CHECK after the timer call, then unconditionally log the
execution mode. -/
def button_handler (env : Env) (prio : Nat) (pin : Nat) (s : St) :
    Except FatalHalt St := do
  let s ←
    if pin = BUTTON_1 then do
      let s := NRF_LOG_INFO "Start toggling LED 1." s
      let r := app_timer_start env.timerStartStatus (APP_TIMER_TICKS 500) s
      APP_ERROR_CHECK r.1 r.2
    else if pin = BUTTON_2 then do
      let s := NRF_LOG_INFO "Stop toggling LED 1." s
      let r := app_timer_stop env.timerStopStatus s
      APP_ERROR_CHECK r.1 r.2
    else
      pure s
  if current_int_priority_get prio = APP_IRQ_PRIORITY_THREAD then
    pure (NRF_LOG_INFO "Button handler is executing in thread/main mode." s)
  else
    pure (NRF_LOG_INFO "Button handler is executing in interrupt handler mode." s)

/-- Shallow embedding of gpiote_event_handler (src/main.c lines 99 to 106):
forwards the pin to button_handler; the polarity action argument is unused. -/
def gpiote_event_handler (env : Env) (prio : Nat) (pin : Nat)
    (action : Nat) (s : St) : Except FatalHalt St :=
  button_handler env prio pin s

/-- Modelled from the spec: nrf_drv_gpiote_out_set drives the output pin
high, which turns the LED off on the DK wiring. -/
def nrf_drv_gpiote_out_set (s : St) : St := { s with ledPin := true }

/-- Modelled from the spec: nrf_drv_gpiote_out_toggle inverts the logical
level of the output pin. -/
def nrf_drv_gpiote_out_toggle (s : St) : St := { s with ledPin := !s.ledPin }

/-- Modelled from the spec: nrf_drv_gpiote_out_init configures the LED
output pin; GPIOTE_CONFIG_OUT_SIMPLE(false) gives an initial low level. -/
def nrf_drv_gpiote_out_init (status : Nat) (initialHigh : Bool) (s : St) :
    Nat × St :=
  if status = NRF_SUCCESS then (NRF_SUCCESS, { s with ledPin := initialHigh })
  else (status, s)

/-- Shallow embedding of timer_handler (src/main.c lines 147 to 161):
toggle the LED, then log the execution mode. -/
def timer_handler (prio : Nat) (s : St) : St :=
  let s := nrf_drv_gpiote_out_toggle s
  if current_int_priority_get prio = APP_IRQ_PRIORITY_THREAD then
    NRF_LOG_INFO "Timeout handler is executing in thread/main mode." s
  else
    NRF_LOG_INFO "Timeout handler is executing in interrupt handler mode." s

/-- Shallow embedding of gpio_init (src/main.c lines 111 to 140): driver
init, LED pin configured low then set high (LED off), the two button pins
configured and enabled, with APP_ERROR_CHECK after each fallible call. -/
def gpio_init (env : Env) (s : St) : Except FatalHalt St := do
  let s ← APP_ERROR_CHECK env.gpioteStatus s
  let r := nrf_drv_gpiote_out_init env.outStatus false s
  let s ← APP_ERROR_CHECK r.1 r.2
  let s := nrf_drv_gpiote_out_set s
  let s ← APP_ERROR_CHECK env.in1Status s
  let s ← APP_ERROR_CHECK env.in2Status s
  let s := { s with buttonsEnabled := true }
  pure s

/-- Shallow embedding of timer_init (src/main.c lines 166 to 177):
app_timer_init then app_timer_create of the repeated LED timer, with
APP_ERROR_CHECK after each. -/
def timer_init (env : Env) (s : St) : Except FatalHalt St := do
  let s ← APP_ERROR_CHECK env.timerInitStatus s
  let s ← APP_ERROR_CHECK env.timerCreateStatus s
  pure { s with timerCreated := true }

/-- Shallow embedding of lfclk_request (src/main.c lines 185 to 190):
clock driver init with APP_ERROR_CHECK, then the LFCLK request. -/
def lfclk_request (env : Env) (s : St) : Except FatalHalt St := do
  let s ← APP_ERROR_CHECK env.clockStatus s
  pure { s with lfclkRequested := true }

/-- Shallow embedding of log_init (src/main.c lines 195 to 201):
NRF_LOG_INIT with APP_ERROR_CHECK, then backend setup. -/
def log_init (env : Env) (s : St) : Except FatalHalt St := do
  let s ← APP_ERROR_CHECK env.logStatus s
  pure { s with logReady := true }

/-- Power-on reset state, before main runs. -/
def st0 : St :=
  { ledPin := false, timerActive := false, timerPeriod := 0,
    timerCreated := false, lfclkRequested := false, logReady := false,
    buttonsEnabled := false, log := [], cmds := [] }

/-- Shallow embedding of the setup part of main (src/main.c lines 206 to
213): the four init calls in order, then the startup banner, yielding the
state in which the idle loop is entered. -/
def main_pre_loop (env : Env) : Except FatalHalt St := do
  let s ← lfclk_request env st0
  let s ← log_init env s
  let s ← gpio_init env s
  let s ← timer_init env s
  pure (NRF_LOG_INFO "Scheduler tutorial example started." s)

/-- The guard of the main loop, while (true). -/
def main_loop_guard : Bool := true

/-- Modelled from the spec: the wait-for-interrupt instruction performs no
work in thread context and leaves the program state unchanged. -/
def __WFI (s : St) : St := s

/-- n iterations of the main idle loop body. -/
def main_loop_iter : Nat → St → St
  | 0, s => s
  | n + 1, s => main_loop_iter n (__WFI s)

/-- The BlinkState of the spec data model. -/
inductive BlinkState where
  | RUNNING
  | STOPPED
  deriving Repr, DecidableEq

/-- BlinkState as realised by the program state: RUNNING exactly when the
repeated timer is active. -/
def blinkOf (s : St) : BlinkState :=
  if s.timerActive then BlinkState.RUNNING else BlinkState.STOPPED

/-- Whether the LED is lit: the cathode is on the pin, so lit means low. -/
def ledOn (s : St) : Bool := !s.ledPin

/-- A start or stop button event of the spec. -/
inductive Ev where
  | start
  | stop
  deriving Repr, DecidableEq

/-- The pin a button event arrives on. -/
def pinOf : Ev → Nat
  | Ev.start => BUTTON_1
  | Ev.stop => BUTTON_2

/-- The BlinkState an event targets. -/
def targetOf : Ev → BlinkState
  | Ev.start => BlinkState.RUNNING
  | Ev.stop => BlinkState.STOPPED

/-- Run a sequence of button events through button_handler with all
collaborator calls succeeding. -/
def applyEvents (prio : Nat) (es : List Ev) (s : St) : Except FatalHalt St :=
  match es with
  | [] => Except.ok s
  | e :: rest => do
      let s ← button_handler envOk prio (pinOf e) s
      applyEvents prio rest s

/-- The state reached by main under the all-success environment. -/
def initState : St := ((main_pre_loop envOk).toOption).getD st0

/-- The execution-mode line button_handler logs for a given priority. -/
def btnCtxMsg (prio : Nat) : String :=
  if prio = APP_IRQ_PRIORITY_THREAD then
    "Button handler is executing in thread/main mode."
  else
    "Button handler is executing in interrupt handler mode."

/-- The execution-mode line timer_handler logs for a given priority. -/
def timerCtxMsg (prio : Nat) : String :=
  if prio = APP_IRQ_PRIORITY_THREAD then
    "Timeout handler is executing in thread/main mode."
  else
    "Timeout handler is executing in interrupt handler mode."

/-- Whether a log line is one of the two button execution-mode lines. -/
def isBtnCtxLine (m : String) : Bool :=
  m == "Button handler is executing in thread/main mode." ||
  m == "Button handler is executing in interrupt handler mode."

/-- The dispatch part of button_handler, as a pure state transformer:
what the switch statement does to the state under the all-success
environment, before the execution-mode line is logged. -/
def dispatchPart (pin : Nat) (s : St) : St :=
  if pin = BUTTON_1 then
    { s with log := "Start toggling LED 1." :: s.log,
             cmds := TimerCmd.start (APP_TIMER_TICKS 500) :: s.cmds,
             timerActive := true, timerPeriod := APP_TIMER_TICKS 500 }
  else if pin = BUTTON_2 then
    { s with log := "Stop toggling LED 1." :: s.log,
             cmds := TimerCmd.stop :: s.cmds,
             timerActive := false }
  else
    s

/-- The tail part of button_handler: log the execution-mode line. -/
def ctxB (prio : Nat) (s : St) : St :=
  if current_int_priority_get prio = APP_IRQ_PRIORITY_THREAD then
    NRF_LOG_INFO "Button handler is executing in thread/main mode." s
  else
    NRF_LOG_INFO "Button handler is executing in interrupt handler mode." s

theorem ctxB_eq (prio : Nat) (s : St) :
    ctxB prio s = { s with log := btnCtxMsg prio :: s.log } := by
  unfold ctxB btnCtxMsg NRF_LOG_INFO current_int_priority_get
  by_cases h : prio = APP_IRQ_PRIORITY_THREAD <;> simp [h]

theorem bh_eq (prio pin : Nat) (s : St) :
    button_handler envOk prio pin s =
      Except.ok (ctxB prio (dispatchPart pin s)) := by
  by_cases h1 : pin = BUTTON_1
  · subst h1
    simp [button_handler, dispatchPart, ctxB, app_timer_start,
      APP_ERROR_CHECK, NRF_LOG_INFO, envOk, NRF_SUCCESS, BUTTON_1, BUTTON_2,
      Bind.bind, Except.bind, Pure.pure, Except.pure]
    split <;> rfl
  · by_cases h2 : pin = BUTTON_2
    · subst h2
      simp [button_handler, dispatchPart, ctxB, app_timer_stop,
        APP_ERROR_CHECK, NRF_LOG_INFO, envOk, NRF_SUCCESS, BUTTON_1, BUTTON_2,
        Bind.bind, Except.bind, Pure.pure, Except.pure]
      split <;> rfl
    · simp [button_handler, dispatchPart, ctxB, h1, h2, NRF_LOG_INFO,
        Bind.bind, Except.bind, Pure.pure, Except.pure]
      split <;> rfl

/-- C1: button_handler on PIN_START (BUTTON_1) logs the start line and
issues a start command to the timer service with a 500-millisecond period;
on PIN_STOP (BUTTON_2) it logs the stop line and issues a stop command. -/
theorem button_dispatch_start_stop (prio : Nat) (s : St) :
    (∃ t, button_handler envOk prio BUTTON_1 s = Except.ok t ∧
       t.log = btnCtxMsg prio :: "Start toggling LED 1." :: s.log ∧
       t.cmds = TimerCmd.start (APP_TIMER_TICKS 500) :: s.cmds ∧
       APP_TIMER_TICKS 500 = 500 ∧
       t.timerActive = true ∧ t.timerPeriod = 500) ∧
    (∃ t, button_handler envOk prio BUTTON_2 s = Except.ok t ∧
       t.log = btnCtxMsg prio :: "Stop toggling LED 1." :: s.log ∧
       t.cmds = TimerCmd.stop :: s.cmds ∧
       t.timerActive = false) := by
  refine ⟨⟨_, bh_eq prio BUTTON_1 s, ?_⟩, ⟨_, bh_eq prio BUTTON_2 s, ?_⟩⟩ <;>
    simp [ctxB_eq, dispatchPart, BUTTON_1, BUTTON_2, APP_TIMER_TICKS]

/-- C10: gpiote_event_handler ignores its polarity action argument: any
two action values give identical behavior, both equal to button_handler
on the same pin. -/
theorem gpiote_action_irrelevant (env : Env) (prio pin a1 a2 : Nat) (s : St) :
    gpiote_event_handler env prio pin a1 s =
      gpiote_event_handler env prio pin a2 s ∧
    gpiote_event_handler env prio pin a1 s = button_handler env prio pin s :=
  ⟨rfl, rfl⟩

theorem isBtnCtxLine_btnCtxMsg (prio : Nat) :
    isBtnCtxLine (btnCtxMsg prio) = true := by
  unfold isBtnCtxLine btnCtxMsg
  split <;> decide

theorem isBtnCtxLine_start : isBtnCtxLine "Start toggling LED 1." = false := by
  decide

theorem isBtnCtxLine_stop : isBtnCtxLine "Stop toggling LED 1." = false := by
  decide

theorem dispatchPart_countP (pin : Nat) (s : St) :
    (dispatchPart pin s).log.countP isBtnCtxLine =
      s.log.countP isBtnCtxLine := by
  unfold dispatchPart
  by_cases h1 : pin = BUTTON_1
  · simp [h1, List.countP_cons, isBtnCtxLine_start]
  · by_cases h2 : pin = BUTTON_2
    · subst h2
      simp [BUTTON_1, BUTTON_2, List.countP_cons, isBtnCtxLine_stop]
    · simp [h1, h2]

/-- C4 counterexample: the claim says a pin outside the two buttons causes
no diagnostic output; but button_handler on pin 0 still emits the
execution-mode line, so the log grows. -/
theorem unknown_pin_counterexample :
    button_handler envOk APP_IRQ_PRIORITY_THREAD 0 initState =
      Except.ok (NRF_LOG_INFO
        "Button handler is executing in thread/main mode." initState) ∧
    (NRF_LOG_INFO "Button handler is executing in thread/main mode."
        initState).log ≠ initState.log := by
  constructor
  · rfl
  · simp [NRF_LOG_INFO]

/-- C4 amended: for a pin outside the two buttons, button_handler issues
no timer command, performs no BlinkState transition and emits no dispatch
diagnostic; it still emits exactly the unconditional execution-mode line. -/
theorem unknown_pin_no_action (prio pin : Nat) (s : St)
    (h1 : pin ≠ BUTTON_1) (h2 : pin ≠ BUTTON_2) :
    ∃ t, button_handler envOk prio pin s = Except.ok t ∧
      t.cmds = s.cmds ∧ blinkOf t = blinkOf s ∧
      t.timerActive = s.timerActive ∧ t.timerPeriod = s.timerPeriod ∧
      t.ledPin = s.ledPin ∧
      t.log = btnCtxMsg prio :: s.log := by
  refine ⟨_, bh_eq prio pin s, ?_⟩
  simp [ctxB_eq, dispatchPart, h1, h2, blinkOf]

theorem unknown_pin_no_action_witness :
    (0 : Nat) ≠ BUTTON_1 ∧ (0 : Nat) ≠ BUTTON_2 ∧
    (∃ t, button_handler envOk 0 0 st0 = Except.ok t ∧
      t.cmds = st0.cmds ∧ blinkOf t = blinkOf st0 ∧
      t.timerActive = st0.timerActive ∧ t.timerPeriod = st0.timerPeriod ∧
      t.ledPin = st0.ledPin ∧
      t.log = btnCtxMsg 0 :: st0.log) :=
  ⟨by decide, by decide,
   unknown_pin_no_action 0 0 st0 (by decide) (by decide)⟩

/-- C5: button_handler, for any pin, ends by logging exactly one
execution-mode line: the thread/main line when the priority is the thread
priority, the interrupt line otherwise. -/
theorem button_context_line (prio pin : Nat) (s : St) :
    (∃ t, button_handler envOk prio pin s = Except.ok t ∧
       t.log.head? = some (btnCtxMsg prio) ∧
       t.log.countP isBtnCtxLine = s.log.countP isBtnCtxLine + 1) ∧
    btnCtxMsg APP_IRQ_PRIORITY_THREAD =
      "Button handler is executing in thread/main mode." ∧
    (∀ p : Nat, p = APP_IRQ_PRIORITY_THREAD ∨
       btnCtxMsg p =
         "Button handler is executing in interrupt handler mode.") := by
  refine ⟨⟨_, bh_eq prio pin s, ?_, ?_⟩, by simp [btnCtxMsg], ?_⟩
  · simp [ctxB_eq]
  · simp [ctxB_eq, List.countP_cons, isBtnCtxLine_btnCtxMsg,
      dispatchPart_countP]
  · intro p
    by_cases hp : p = APP_IRQ_PRIORITY_THREAD
    · exact Or.inl hp
    · exact Or.inr (by simp [btnCtxMsg, hp])

/-- C6: every invocation of timer_handler toggles the LED pin level and
then logs exactly one execution-mode line: the thread/main line at the
thread priority, the interrupt line otherwise. -/
theorem timeout_toggles_and_logs (prio : Nat) (s : St) :
    (timer_handler prio s).ledPin = !s.ledPin ∧
    ledOn (timer_handler prio s) = !ledOn s ∧
    (timer_handler prio s).log = timerCtxMsg prio :: s.log ∧
    (timer_handler prio s).log.length = s.log.length + 1 ∧
    timerCtxMsg APP_IRQ_PRIORITY_THREAD =
      "Timeout handler is executing in thread/main mode." ∧
    (∀ p : Nat, p = APP_IRQ_PRIORITY_THREAD ∨
       timerCtxMsg p =
         "Timeout handler is executing in interrupt handler mode.") := by
  have hmain : timer_handler prio s =
      { s with ledPin := !s.ledPin, log := timerCtxMsg prio :: s.log } := by
    unfold timer_handler nrf_drv_gpiote_out_toggle NRF_LOG_INFO timerCtxMsg
      current_int_priority_get
    by_cases h : prio = APP_IRQ_PRIORITY_THREAD <;> simp [h]
  refine ⟨by simp [hmain], by simp [hmain, ledOn], by simp [hmain],
    by simp [hmain], by simp [timerCtxMsg], ?_⟩
  intro p
  by_cases hp : p = APP_IRQ_PRIORITY_THREAD
  · exact Or.inl hp
  · exact Or.inr (by simp [timerCtxMsg, hp])

theorem beq_btnCtxMsg_start (prio : Nat) :
    (btnCtxMsg prio == "Start toggling LED 1.") = false := by
  unfold btnCtxMsg
  split <;> decide

/-- C3: starting is idempotent for BlinkState and the timer period: a
start while already RUNNING leaves the state RUNNING with the same
500-millisecond period, and two consecutive starts log the start line
twice; a stop always leaves the state STOPPED, in particular a stop while
already STOPPED. -/
theorem start_stop_idempotent (prio : Nat) (s : St) :
    (∃ t u, button_handler envOk prio BUTTON_1 s = Except.ok t ∧
       button_handler envOk prio BUTTON_1 t = Except.ok u ∧
       blinkOf t = BlinkState.RUNNING ∧ t.timerPeriod = 500 ∧
       blinkOf u = BlinkState.RUNNING ∧ u.timerPeriod = 500 ∧
       u.log.count "Start toggling LED 1." =
         s.log.count "Start toggling LED 1." + 2) ∧
    (∃ t, button_handler envOk prio BUTTON_2 s = Except.ok t ∧
       blinkOf t = BlinkState.STOPPED) := by
  refine ⟨⟨_, _, bh_eq prio BUTTON_1 s, bh_eq prio BUTTON_1 _,
      ?_, ?_, ?_, ?_, ?_⟩, ⟨_, bh_eq prio BUTTON_2 s, ?_⟩⟩ <;>
    simp [ctxB_eq, dispatchPart, blinkOf, BUTTON_1, BUTTON_2,
      APP_TIMER_TICKS, List.count_cons, beq_btnCtxMsg_start]

theorem applyEvents_cons (prio : Nat) (e : Ev) (rest : List Ev) (s : St) :
    applyEvents prio (e :: rest) s =
      applyEvents prio rest (ctxB prio (dispatchPart (pinOf e) s)) := by
  simp [applyEvents, bh_eq, Bind.bind, Except.bind]

theorem step_timerActive (prio : Nat) (e : Ev) (s : St) :
    (ctxB prio (dispatchPart (pinOf e) s)).timerActive =
      decide (e = Ev.start) := by
  cases e <;> simp [ctxB_eq, dispatchPart, pinOf, BUTTON_1, BUTTON_2]

theorem applyEvents_ok_last (prio : Nat) :
    ∀ (es : List Ev) (e : Ev), es.getLast? = some e →
    ∀ s : St, ∃ t, applyEvents prio es s = Except.ok t ∧
      t.timerActive = decide (e = Ev.start) := by
  intro es
  induction es with
  | nil => intro e h; simp at h
  | cons e0 rest ih =>
    intro e h s
    cases rest with
    | nil =>
      simp at h
      subst h
      exact ⟨_, by simp [applyEvents, bh_eq, Bind.bind, Except.bind],
        step_timerActive prio e0 s⟩
    | cons e1 rest2 =>
      have h2 : (e1 :: rest2).getLast? = some e := by
        rw [← h, List.getLast?_cons_cons]
      obtain ⟨t, ht, ha⟩ :=
        ih e h2 (ctxB prio (dispatchPart (pinOf e0) s))
      exact ⟨t, by rw [applyEvents_cons]; exact ht, ha⟩

/-- C2: from the post-initialization state, after any nonempty sequence of
start/stop button events the BlinkState equals the target of the last
event, and the toggle timer is active exactly when the last event was a
start. -/
theorem blink_last_write_wins (prio : Nat) (es : List Ev) (e : Ev)
    (h : es.getLast? = some e) :
    ∃ t, applyEvents prio es initState = Except.ok t ∧
      blinkOf t = targetOf e ∧
      (t.timerActive = true ↔ e = Ev.start) := by
  obtain ⟨t, ht, ha⟩ := applyEvents_ok_last prio es e h initState
  refine ⟨t, ht, ?_, ?_⟩
  · cases e <;> simp_all [blinkOf, targetOf]
  · cases e <;> simp_all

theorem blink_last_write_wins_witness :
    ([Ev.start, Ev.stop].getLast? = some Ev.stop) ∧
    (∃ t, applyEvents 0 [Ev.start, Ev.stop] initState = Except.ok t ∧
      blinkOf t = targetOf Ev.stop ∧
      (t.timerActive = true ↔ Ev.stop = Ev.start)) :=
  ⟨rfl, blink_last_write_wins 0 [Ev.start, Ev.stop] Ev.stop rfl⟩

/-- C7: after power-on initialization completes, BlinkState is STOPPED,
the LED is off, the timer is inactive (so no toggle callback fires) and
no timer command has been issued. -/
theorem power_on_stopped :
    main_pre_loop envOk = Except.ok initState ∧
    blinkOf initState = BlinkState.STOPPED ∧
    ledOn initState = false ∧
    initState.timerActive = false ∧
    initState.cmds = [] :=
  ⟨rfl, rfl, rfl, rfl, rfl⟩

/-- C9: the guard of the main loop is the constant true, so the loop is
never exited; each iteration is a wait-for-interrupt that does no work in
thread context; and the state entering the loop carries the startup
banner as its most recent log line. -/
theorem main_idles_forever :
    main_loop_guard = true ∧
    (∀ n : Nat, ∀ s : St, main_loop_iter n s = s) ∧
    main_pre_loop envOk = Except.ok initState ∧
    initState.log.head? = some "Scheduler tutorial example started." := by
  refine ⟨rfl, ?_, rfl, rfl⟩
  intro n s
  induction n with
  | zero => rfl
  | succ n ih => exact ih

/-- C8: any non-success status from a collaborator call is fatal at the
point of detection: the computation stops with an error carrying that
status and the state exactly as it was when the failure was detected, with
no retry, no recovery and no cleanup (in particular the button handler
never reaches its execution-mode log line), and a failure during setup
propagates so main halts. -/
theorem collaborator_failure_fatal (e : Nat) (he : e ≠ NRF_SUCCESS)
    (prio : Nat) (s : St) :
    button_handler { envOk with timerStartStatus := e } prio BUTTON_1 s =
      Except.error ⟨e, { s with log := "Start toggling LED 1." :: s.log,
                                cmds := TimerCmd.start (APP_TIMER_TICKS 500) :: s.cmds }⟩ ∧
    button_handler { envOk with timerStopStatus := e } prio BUTTON_2 s =
      Except.error ⟨e, { s with log := "Stop toggling LED 1." :: s.log,
                                cmds := TimerCmd.stop :: s.cmds }⟩ ∧
    lfclk_request { envOk with clockStatus := e } s = Except.error ⟨e, s⟩ ∧
    log_init { envOk with logStatus := e } s = Except.error ⟨e, s⟩ ∧
    gpio_init { envOk with gpioteStatus := e } s = Except.error ⟨e, s⟩ ∧
    gpio_init { envOk with outStatus := e } s = Except.error ⟨e, s⟩ ∧
    gpio_init { envOk with in1Status := e } s =
      Except.error ⟨e, { s with ledPin := true }⟩ ∧
    gpio_init { envOk with in2Status := e } s =
      Except.error ⟨e, { s with ledPin := true }⟩ ∧
    timer_init { envOk with timerInitStatus := e } s = Except.error ⟨e, s⟩ ∧
    timer_init { envOk with timerCreateStatus := e } s =
      Except.error ⟨e, s⟩ ∧
    main_pre_loop { envOk with clockStatus := e } =
      Except.error ⟨e, st0⟩ := by
  have he0 : ¬ e = 0 := by simpa [NRF_SUCCESS] using he
  refine ⟨?_, ?_, ?_, ?_, ?_, ?_, ?_, ?_, ?_, ?_, ?_⟩ <;>
    simp [button_handler, lfclk_request, log_init, gpio_init, timer_init,
      main_pre_loop, app_timer_start, app_timer_stop, APP_ERROR_CHECK,
      NRF_LOG_INFO, nrf_drv_gpiote_out_init, nrf_drv_gpiote_out_set,
      envOk, NRF_SUCCESS, BUTTON_1, BUTTON_2, he0,
      Bind.bind, Except.bind, Pure.pure, Except.pure]

theorem collaborator_failure_fatal_witness :
    (1 : Nat) ≠ NRF_SUCCESS ∧
    (button_handler { envOk with timerStartStatus := 1 } 0 BUTTON_1 st0 =
      Except.error ⟨1, { st0 with log := "Start toggling LED 1." :: st0.log,
                                  cmds := TimerCmd.start (APP_TIMER_TICKS 500) :: st0.cmds }⟩ ∧
    button_handler { envOk with timerStopStatus := 1 } 0 BUTTON_2 st0 =
      Except.error ⟨1, { st0 with log := "Stop toggling LED 1." :: st0.log,
                                  cmds := TimerCmd.stop :: st0.cmds }⟩ ∧
    lfclk_request { envOk with clockStatus := 1 } st0 =
      Except.error ⟨1, st0⟩ ∧
    log_init { envOk with logStatus := 1 } st0 = Except.error ⟨1, st0⟩ ∧
    gpio_init { envOk with gpioteStatus := 1 } st0 =
      Except.error ⟨1, st0⟩ ∧
    gpio_init { envOk with outStatus := 1 } st0 = Except.error ⟨1, st0⟩ ∧
    gpio_init { envOk with in1Status := 1 } st0 =
      Except.error ⟨1, { st0 with ledPin := true }⟩ ∧
    gpio_init { envOk with in2Status := 1 } st0 =
      Except.error ⟨1, { st0 with ledPin := true }⟩ ∧
    timer_init { envOk with timerInitStatus := 1 } st0 =
      Except.error ⟨1, st0⟩ ∧
    timer_init { envOk with timerCreateStatus := 1 } st0 =
      Except.error ⟨1, st0⟩ ∧
    main_pre_loop { envOk with clockStatus := 1 } =
      Except.error ⟨1, st0⟩) :=
  ⟨by decide, collaborator_failure_fatal 1 (by decide) 0 st0⟩

end SchedTut
